import Mathlib

/-
Verification of the filman.cc scraper backend.

The embedding models the Python sources `scraper/filman_scraper.py` and
`app.py` at the granularity the claims need: the browser page is supplied
as data (poster tiles, episode-list items, links-table rows), and each
scraper method becomes a pure function over that data.  Exceptions that
the Python code catches per item are modelled as `Option`; exceptions that
escape a loop are modelled by the abort behaviour of the enclosing
function (partial results, or a `none` result).
-/

namespace Filman

/-! ### Python string primitives -/

/-- Whitespace recognised by Python's `str.strip()` / `str.split()` and by
`\s` in regular expressions (ASCII range). -/
def pyIsSpace (c : Char) : Bool :=
  c == ' ' || c == '\t' || c == '\n' || c == '\r' || c == '\x0b' || c == '\x0c'

/-- `pat` occurs at the head of the second list. -/
def chLeads : List Char → List Char → Bool
  | [], _ => true
  | _ :: _, [] => false
  | a :: as, b :: bs => a == b && chLeads as bs

/-- `pat` occurs somewhere inside the second list. -/
def chOccurs (pat : List Char) : List Char → Bool
  | [] => chLeads pat []
  | b :: bs => chLeads pat (b :: bs) || chOccurs pat bs

/-- Python's substring test `pat in hay`. -/
def strContains (hay pat : String) : Bool :=
  chOccurs pat.data hay.data

/-- Python `str.strip()` (ASCII whitespace). -/
def pyStrip (s : String) : String :=
  String.mk (((s.data.dropWhile pyIsSpace).reverse.dropWhile pyIsSpace).reverse)

/-- Python `str.lower()` (ASCII case mapping; the strings compared here are
ASCII). -/
def pyToLower (s : String) : String :=
  String.mk (s.data.map Char.toLower)

/-- Python `str.upper()` (ASCII case mapping). -/
def pyToUpper (s : String) : String :=
  String.mk (s.data.map Char.toUpper)

/-- Python `s.split()[0]`: the first whitespace-delimited token of `s`;
`none` models the `IndexError` raised when `s` has no tokens. -/
def firstToken (s : String) : Option String :=
  match s.data.dropWhile pyIsSpace with
  | [] => none
  | c :: cs => some (String.mk ((c :: cs).takeWhile (fun x => !pyIsSpace x)))

/-! ### Search results: `get_search_results` and `select_result_by_index` -/

/-- One `.poster` tile of the search page, at the granularity the scraper
reads it.  `link` is the `a.img-responsive` element: `none` when the element
is missing (`NoSuchElementException`), `some none` when it is present but has
no `href` attribute (Selenium then yields `None`, and the later substring
test on it raises `TypeError`).  `title` / `year` are the raw texts of the
sibling `.film_title` / `.film_year` elements, `none` when missing. -/
structure Poster where
  url : Option (Option String)
  title : Option String
  year : Option String
  deriving Repr, DecidableEq

/-- `"/s/" in url or "/serial/" in url`. -/
def serialUrl (u : String) : Bool :=
  strContains u "/s/" || strContains u "/serial/"

/-- `"/m/" in url or "/film/" in url`. -/
def filmUrl (u : String) : Bool :=
  strContains u "/m/" || strContains u "/film/"

/-- The `item_type` string computed in `get_search_results`. -/
def classifyUrl (u : String) : String :=
  if serialUrl u then "serial" else if filmUrl u then "film" else "unknown"

/-- The result record of `get_search_results` (keys `title`, `url`, `type`,
`year`). -/
structure SearchResult where
  title : String
  url : String
  type : String
  year : String
  deriving Repr, DecidableEq

/-- The record one poster contributes to `get_search_results`, or `none` when
the tile is skipped (missing link or title element, both caught per tile as
`NoSuchElementException`, or excluded by the `content_type` filter).  A tile
whose link has no `href` contributes `none` as well: the `TypeError` it causes
is handled by the caller (`get_search_results` aborts there). -/
def posterRecord (content_type : Option String) (p : Poster) : Option SearchResult :=
  match p.url with
  | some (some url) =>
    match p.title with
    | some t =>
      let item_type := classifyUrl url
      let keep := match content_type with
        | some ct => item_type == pyToLower ct
        | none => true
      if keep then
        some ⟨pyStrip t, url, item_type, (p.year.map pyStrip).getD ""⟩
      else none
    | none => none
  | _ => none

/-- `FilmanScraper.get_search_results`: walks the poster tiles in DOM order,
skipping tiles with a missing link or title element and tiles excluded by the
`content_type` filter.  A link element without `href` raises `TypeError`
(substring test on `None`), which escapes the per-tile handler and makes the
function return the results accumulated so far. -/
def get_search_results (content_type : Option String) : List Poster → List SearchResult
  | [] => []
  | p :: ps =>
    match p.url with
    | none => get_search_results content_type ps
    | some none => []
    | some (some url) =>
      match p.title with
      | none => get_search_results content_type ps
      | some t =>
        let item_type := classifyUrl url
        let keep := match content_type with
          | some ct => item_type == pyToLower ct
          | none => true
        if keep then
          ⟨pyStrip t, url, item_type, (p.year.map pyStrip).getD ""⟩
            :: get_search_results content_type ps
        else get_search_results content_type ps

/-- The filtering pass of `select_result_by_index` when a `content_type` is
given.  `none` models the `TypeError` abort: the guard
`content_type.lower() == "serial" and ("/s/" in url ...)` only reaches the
substring test (and hence the `TypeError` on a `None` href) when the
string comparison on the left of `and` succeeds. -/
def selectFiltered (ct : String) : List Poster → Option (List Poster)
  | [] => some []
  | p :: ps =>
    match p.url with
    | none => selectFiltered ct ps
    | some urlOpt =>
      if pyToLower ct == "serial" then
        match urlOpt with
        | none => none
        | some url =>
          if serialUrl url then (selectFiltered ct ps).map (p :: ·)
          else selectFiltered ct ps
      else if pyToLower ct == "film" then
        match urlOpt with
        | none => none
        | some url =>
          if filmUrl url then (selectFiltered ct ps).map (p :: ·)
          else selectFiltered ct ps
      else selectFiltered ct ps

/-- `FilmanScraper.select_result_by_index`: rebuilds the filtered tile list
and clicks the tile at `index`.  The returned value is the poster whose link
is clicked, `none` when the call returns `False` (filter abort, index out of
range, or missing link element at click time). -/
def select_result_by_index (index : Nat) (content_type : Option String)
    (posters : List Poster) : Option Poster :=
  match (match content_type with
    | some ct => selectFiltered ct posters
    | none => some posters) with
  | none => none
  | some filtered =>
    match filtered.get? index with
    | none => none
    | some p =>
      match p.url with
      | none => none
      | some _ => some p

/-! ### The search endpoint's year-based result selection (`app.py`) -/

/-- The `for i, result in enumerate(search_results): ... else:` loop of
`scrape_search`: starting from position `acc`, the index of the first result
whose `year` equals `y`; when the loop falls through without a `break`,
`result_index` keeps its initial value `0`. -/
def find_year_index (y : String) : Nat → List SearchResult → Nat
  | _, [] => 0
  | i, r :: rs => if r.year == y then i else find_year_index y (i + 1) rs

/-- `result_index` as computed by `scrape_search` in `app.py`: `0` when no
(truthy) year was supplied, otherwise the loop above over the search
results with the supplied year stringified. -/
def pick_result_index (year : Option String) (results : List SearchResult) : Nat :=
  match year with
  | none => 0
  | some y => find_year_index y 0 results

/-! ### Episodes: `extract_episodes` -/

/-- The episode record built by `extract_episodes` (keys `episode`, `title`,
`url`).  `url` is the anchor's `href` attribute, which Selenium reports as
`None` when absent — the code stores it unchanged. -/
structure Episode where
  episode : String
  title : String
  url : Option String
  deriving Repr, DecidableEq

/-- The first `a` element inside an episode list item: its `href` attribute
(possibly absent) and its raw text. -/
structure Anchor where
  href : Option String
  text : String
  deriving Repr, DecidableEq

/-- One `#episode-list ul li` item: whether it contains a nested `span`
(season header marker) and its first anchor (`none` when missing, which the
per-item handler skips as `NoSuchElementException`). -/
structure EpisodeItem where
  hasSpan : Bool
  link : Option Anchor
  deriving Repr, DecidableEq

/-- The page state `extract_episodes` reads: the current URL, the raw text of
the first `h1, .film-title, .page-title` element (`none` when no such element
exists), and the episode-list items. -/
structure Page where
  current_url : String
  heading : Option String
  items : List EpisodeItem
  deriving Repr, DecidableEq

/-- `re.match(r'\[([^\]]+)\]\s*(.*)', text)`: on a match, the bracket content
(group 1) and group 2 (everything after the bracket and the following
whitespace, up to the first newline, since `.` does not match `\n`). -/
def parseEpText (t : String) : Option (String × String) :=
  match t.data with
  | [] => none
  | ch :: rest =>
    if ch == '[' then
      let content := rest.takeWhile (fun c => !(c == ']'))
      if content.isEmpty then none
      else
        match rest.dropWhile (fun c => !(c == ']')) with
        | ']' :: rest2 =>
          let rest3 := rest2.dropWhile pyIsSpace
          some (String.mk content, String.mk (rest3.takeWhile (fun c => !(c == '\n'))))
        | _ => none
    else none

/-- The body of the episode loop in `extract_episodes`: skip season headers
(items containing a `span`) and items without an anchor; otherwise split the
stripped anchor text with the bracket pattern (group 1 upper-cased, group 2
stripped), falling back to the whole text as label with an empty title. -/
def episodeOf (item : EpisodeItem) : Option Episode :=
  if item.hasSpan then none
  else
    match item.link with
    | none => none
    | some a =>
      let full_text := pyStrip a.text
      match parseEpText full_text with
      | some (content, rest) => some ⟨pyToUpper content, pyStrip rest, a.href⟩
      | none => some ⟨full_text, "", a.href⟩

/-- `FilmanScraper.extract_episodes`: a URL containing `/m/` or `/film/`
yields a single synthetic record (label `FILM`, title from the page heading
with fallback `"Film"`, url = current URL); otherwise the episode-list items
are folded with `episodeOf`. -/
def extract_episodes (page : Page) : List Episode :=
  if strContains page.current_url "/m/" || strContains page.current_url "/film/" then
    [⟨"FILM", (page.heading.map pyStrip).getD "Film", some page.current_url⟩]
  else
    page.items.filterMap episodeOf

/-! ### base64 (`base64.b64decode` on a `str` argument) -/

/-- Value of a standard-alphabet base64 character. -/
def b64Val (c : Char) : Option Nat :=
  if 'A' ≤ c && c ≤ 'Z' then some (c.toNat - 65)
  else if 'a' ≤ c && c ≤ 'z' then some (c.toNat - 71)
  else if '0' ≤ c && c ≤ '9' then some (c.toNat + 4)
  else if c == '+' then some 62
  else if c == '/' then some 63
  else none

/-- Decode 4-character groups into bytes; `=` padding is accepted only at the
very end.  Leftover characters (length not a multiple of 4) are an error,
matching `binascii.Error: Incorrect padding`. -/
def b64Groups : List Char → Option (List Nat)
  | [] => some []
  | a :: b :: c :: d :: rest =>
    match b64Val a, b64Val b with
    | some va, some vb =>
      if c == '=' then
        if d == '=' && rest.isEmpty then some [va * 4 + vb / 16] else none
      else
        match b64Val c with
        | none => none
        | some vc =>
          if d == '=' then
            if rest.isEmpty then some [va * 4 + vb / 16, (vb % 16) * 16 + vc / 4]
            else none
          else
            match b64Val d with
            | none => none
            | some vd =>
              (b64Groups rest).map
                (fun bs =>
                  (va * 4 + vb / 16) :: ((vb % 16) * 16 + vc / 4)
                    :: ((vc % 4) * 64 + vd) :: bs)
    | _, _ => none
  | _ => none

/-- `base64.b64decode` applied to a `str`: the argument is first encoded as
ASCII (non-ASCII raises `ValueError`), characters outside the alphabet are
discarded (default `validate=False`), then 4-character groups are decoded;
`none` models the raised error. -/
def b64decode (s : String) : Option (List Nat) :=
  if s.data.any (fun c => 128 ≤ c.toNat) then none
  else b64Groups (s.data.filter (fun c => (b64Val c).isSome || c == '='))

/-! ### UTF-8 decoding (`bytes.decode('utf-8')`) -/

/-- Continuation byte test. -/
def utf8Cont (b : Nat) : Bool := 128 ≤ b && b < 192

/-- Strict UTF-8 decoding of a byte list; `none` models `UnicodeDecodeError`
(stray continuation bytes, truncated sequences, overlong forms, surrogates,
code points beyond U+10FFFF). -/
def utf8Decode : List Nat → Option (List Char)
  | [] => some []
  | b :: bs =>
    if b < 128 then (utf8Decode bs).map (fun cs => Char.ofNat b :: cs)
    else if b < 194 then none
    else if b < 224 then
      match bs with
      | b2 :: rest =>
        if utf8Cont b2 then
          (utf8Decode rest).map (fun cs => Char.ofNat ((b - 192) * 64 + (b2 - 128)) :: cs)
        else none
      | [] => none
    else if b < 240 then
      match bs with
      | b2 :: b3 :: rest =>
        if utf8Cont b2 && utf8Cont b3 then
          let cp := (b - 224) * 4096 + (b2 - 128) * 64 + (b3 - 128)
          if cp < 2048 || (55296 ≤ cp && cp < 57344) then none
          else (utf8Decode rest).map (fun cs => Char.ofNat cp :: cs)
        else none
      | _ => none
    else if b < 245 then
      match bs with
      | b2 :: b3 :: b4 :: rest =>
        if utf8Cont b2 && utf8Cont b3 && utf8Cont b4 then
          let cp := (b - 240) * 262144 + (b2 - 128) * 4096 + (b3 - 128) * 64 + (b4 - 128)
          if cp < 65536 || 1114111 < cp then none
          else (utf8Decode rest).map (fun cs => Char.ofNat cp :: cs)
        else none
      | _ => none
    else none

/-! ### JSON (`json.loads`)

Model restrictions (documented divergences from CPython, none reachable from
the claims' witnesses): numbers are kept exactly as mantissa × 10^exponent
instead of floats, `NaN`/`Infinity` literals are not accepted, and `\uXXXX`
escapes denoting surrogate halves are rejected. -/

/-- Parsed JSON value.  Objects keep their members in source order; lookups
take the last occurrence of a key, matching Python dict construction. -/
inductive Json where
  | null
  | bool (b : Bool)
  | num (mant : Int) (exp10 : Int)
  | str (s : String)
  | arr (elems : List Json)
  | obj (members : List (String × Json))
  deriving Repr

/-- JSON whitespace. -/
def jsonWs (c : Char) : Bool :=
  c == ' ' || c == '\t' || c == '\n' || c == '\r'

/-- Drop leading JSON whitespace. -/
def skipWs (cs : List Char) : List Char := cs.dropWhile jsonWs

/-- Hexadecimal digit value. -/
def hexVal (c : Char) : Option Nat :=
  if '0' ≤ c && c ≤ '9' then some (c.toNat - 48)
  else if 'a' ≤ c && c ≤ 'f' then some (c.toNat - 87)
  else if 'A' ≤ c && c ≤ 'F' then some (c.toNat - 55)
  else none

/-- Single-character JSON string escapes. -/
def escChar (e : Char) : Option Char :=
  if e == '"' then some '"'
  else if e == '\\' then some '\\'
  else if e == '/' then some '/'
  else if e == 'b' then some '\x08'
  else if e == 'f' then some '\x0c'
  else if e == 'n' then some '\n'
  else if e == 'r' then some '\r'
  else if e == 't' then some '\t'
  else none

/-- Split a list into its leading decimal digits and the rest. -/
def takeDigits (cs : List Char) : List Char × List Char :=
  (cs.takeWhile (fun c => c.isDigit), cs.dropWhile (fun c => c.isDigit))

/-- Value of a list of decimal digits. -/
def digitsToNat (ds : List Char) : Nat :=
  ds.foldl (fun a c => a * 10 + (c.toNat - 48)) 0

/-- Optional fraction part `.[0-9]+`; when absent or malformed the input is
left in place (a malformed tail then fails at the enclosing level). -/
def parseFracPart (cs : List Char) : List Char × List Char :=
  match cs with
  | '.' :: t =>
    match takeDigits t with
    | ([], _) => ([], cs)
    | (fd, t2) => (fd, t2)
  | _ => ([], cs)

/-- Optional exponent part `[eE][+-]?[0-9]+` as a signed integer. -/
def parseExpPart (cs : List Char) : Int × List Char :=
  match cs with
  | 'e' :: t | 'E' :: t =>
    match t with
    | '+' :: t2 =>
      match takeDigits t2 with
      | ([], _) => (0, cs)
      | (ed, t3) => (Int.ofNat (digitsToNat ed), t3)
    | '-' :: t2 =>
      match takeDigits t2 with
      | ([], _) => (0, cs)
      | (ed, t3) => (-Int.ofNat (digitsToNat ed), t3)
    | _ =>
      match takeDigits t with
      | ([], _) => (0, cs)
      | (ed, t3) => (Int.ofNat (digitsToNat ed), t3)
  | _ => (0, cs)

/-- JSON number `-?(0|[1-9][0-9]*)(.[0-9]+)?([eE][+-]?[0-9]+)?`, represented
exactly as mantissa × 10^exponent. -/
def parseNumber (cs : List Char) : Option (Json × List Char) :=
  let (neg, cs1) := match cs with
    | '-' :: t => (true, t)
    | _ => (false, cs)
  match takeDigits cs1 with
  | ([], _) => none
  | (d0 :: drest, cs2) =>
    if d0 == '0' && !drest.isEmpty then none
    else
      let (fracDs, cs3) := parseFracPart cs2
      let (e10, cs4) := parseExpPart cs3
      let mantNat := digitsToNat ((d0 :: drest) ++ fracDs)
      let mant : Int := if neg then -Int.ofNat mantNat else Int.ofNat mantNat
      some (Json.num mant (e10 - Int.ofNat fracDs.length), cs4)

/-- JSON string body after the opening quote: the decoded characters and the
input following the closing quote.  The fuel strictly exceeds the remaining
input length at every call from `json_loads`. -/
def parseStrBody : Nat → List Char → Option (List Char × List Char)
  | 0, _ => none
  | _, [] => none
  | fuel + 1, c :: rest =>
    if c == '"' then some ([], rest)
    else if c == '\\' then
      match rest with
      | [] => none
      | 'u' :: h1 :: h2 :: h3 :: h4 :: rest3 =>
        match hexVal h1, hexVal h2, hexVal h3, hexVal h4 with
        | some v1, some v2, some v3, some v4 =>
          let cp := ((v1 * 16 + v2) * 16 + v3) * 16 + v4
          if 55296 ≤ cp && cp < 57344 then none
          else (parseStrBody fuel rest3).map (fun p => (Char.ofNat cp :: p.1, p.2))
        | _, _, _, _ => none
      | e :: rest2 =>
        match escChar e with
        | some c2 => (parseStrBody fuel rest2).map (fun p => (c2 :: p.1, p.2))
        | none => none
    else if c.toNat < 32 then none
    else (parseStrBody fuel rest).map (fun p => (c :: p.1, p.2))

mutual

/-- Parse one JSON value (leading whitespace allowed), returning it together
with the unconsumed input. -/
def parseVal : Nat → List Char → Option (Json × List Char)
  | 0, _ => none
  | fuel + 1, cs =>
    match skipWs cs with
    | 'n' :: 'u' :: 'l' :: 'l' :: rest => some (Json.null, rest)
    | 't' :: 'r' :: 'u' :: 'e' :: rest => some (Json.bool true, rest)
    | 'f' :: 'a' :: 'l' :: 's' :: 'e' :: rest => some (Json.bool false, rest)
    | '"' :: rest =>
      (parseStrBody (fuel + 1) rest).map (fun p => (Json.str (String.mk p.1), p.2))
    | '[' :: rest =>
      match skipWs rest with
      | ']' :: rest2 => some (Json.arr [], rest2)
      | cs2 => (parseItems fuel cs2).map (fun p => (Json.arr p.1, p.2))
    | '{' :: rest =>
      match skipWs rest with
      | '}' :: rest2 => some (Json.obj [], rest2)
      | cs2 => (parseMembers fuel cs2).map (fun p => (Json.obj p.1, p.2))
    | cs1 => parseNumber cs1

/-- Parse the elements of a non-empty JSON array, including the closing
bracket. -/
def parseItems : Nat → List Char → Option (List Json × List Char)
  | 0, _ => none
  | fuel + 1, cs =>
    match parseVal fuel cs with
    | none => none
    | some (v, rest) =>
      match skipWs rest with
      | ',' :: rest2 => (parseItems fuel rest2).map (fun p => (v :: p.1, p.2))
      | ']' :: rest2 => some ([v], rest2)
      | _ => none

/-- Parse the members of a non-empty JSON object, including the closing
brace. -/
def parseMembers : Nat → List Char → Option (List (String × Json) × List Char)
  | 0, _ => none
  | fuel + 1, cs =>
    match skipWs cs with
    | '"' :: rest =>
      match parseStrBody (fuel + 1) rest with
      | none => none
      | some (key, rest2) =>
        match skipWs rest2 with
        | ':' :: rest3 =>
          match parseVal fuel rest3 with
          | none => none
          | some (v, rest4) =>
            match skipWs rest4 with
            | ',' :: rest5 =>
              (parseMembers fuel rest5).map (fun p => ((String.mk key, v) :: p.1, p.2))
            | '}' :: rest5 => some ([(String.mk key, v)], rest5)
            | _ => none
        | _ => none
    | _ => none

end

/-- `json.loads`: parse a complete document; trailing whitespace only. -/
def json_loads (s : String) : Option Json :=
  match parseVal (4 * s.data.length + 16) s.data with
  | none => none
  | some (v, rest) => if (skipWs rest).isEmpty then some v else none

/-- Lookup in a parsed JSON object; with duplicate keys the last occurrence
wins, as in Python dict construction. -/
def jsonGet (kvs : List (String × Json)) (k : String) : Option Json :=
  match kvs.reverse.find? (fun kv => kv.1 == k) with
  | some kv => some kv.2
  | none => none

/-- Python truthiness of a JSON-decoded value. -/
def jsonTruthy : Json → Bool
  | Json.null => false
  | Json.bool b => b
  | Json.num m _ => !(m == 0)
  | Json.str s => !(s == "")
  | Json.arr xs => !xs.isEmpty
  | Json.obj kvs => !kvs.isEmpty

/-! ### Streaming links: `extract_streaming_links` -/

/-- The `a[data-iframe]` element inside a row's `td.link-to-video` cell: its
raw text and its `data-iframe` attribute (`none` when absent). -/
structure LinkElem where
  text : String
  dataIframe : Option String
  deriving Repr, DecidableEq

/-- One `#links tbody tr` row: the raw texts of its `td` cells and its
provider-column link element (`none` when missing). -/
structure Row where
  cells : List String
  link : Option LinkElem
  deriving Repr, DecidableEq

/-- A streaming-link record (keys `provider`, `url`, `quality`, `version`).
`url` is the value found under `src`, stored as parsed JSON: the code checks
it only for truthiness before storing it. -/
structure StreamLink where
  provider : String
  url : Json
  quality : String
  version : String
  deriving Repr

/-- The hardcoded provider allow-list. -/
def ALLOWED_PROVIDERS : List String :=
  ["doodstream", "voe.sx", "savefiles", "vid-guard", "streamup"]

/-- `link_elem.text.strip().lower().split()[0] if link_elem.text else
'unknown'`; `none` models the `IndexError` on whitespace-only (but non-empty)
text, which the per-row handler catches. -/
def providerOf (text : String) : Option String :=
  if text == "" then some "unknown"
  else firstToken (pyToLower (pyStrip text))

/-- Decode the `data-iframe` attribute: base64 → UTF-8 → JSON, then
`iframe_data.get('src')`.  `none` models every caught failure: decode or
parse errors, a non-dict document (`.get` raises `AttributeError`), and a
missing `src` key (`.get` returns `None`). -/
def decode_data_iframe (di : String) : Option Json :=
  match b64decode di with
  | none => none
  | some bytes =>
    match utf8Decode bytes with
    | none => none
    | some cs =>
      match json_loads (String.mk cs) with
      | some (Json.obj kvs) => jsonGet kvs "src"
      | _ => none

/-- The body of the row loop in `extract_streaming_links`: `none` when the
row is dropped (fewer than 3 cells; missing provider link; no allow-listed
provider name occurring in the provider token; absent, empty or undecodable
`data-iframe`; falsy `src` value). -/
def rowLink (row : Row) : Option StreamLink :=
  match row.cells with
  | _c0 :: c1 :: c2 :: _ =>
    match row.link with
    | none => none
    | some le =>
      match providerOf le.text with
      | none => none
      | some provider =>
        if !(ALLOWED_PROVIDERS.any (fun a => strContains provider a)) then none
        else
          let version := pyStrip c1
          let quality := pyStrip c2
          match le.dataIframe with
          | none => none
          | some di =>
            if di == "" then none
            else
              match decode_data_iframe di with
              | none => none
              | some v =>
                if jsonTruthy v then some ⟨provider, v, quality, version⟩ else none
  | _ => none

/-- `FilmanScraper.extract_streaming_links` over the rows of the links table:
each row yields at most one record, and any failure inside a row is caught by
the per-row handler, so one bad row never aborts the batch. -/
def extract_streaming_links (rows : List Row) : List StreamLink :=
  rows.filterMap rowLink

/-! ### Cookie injection: `inject_cookies` -/

/-- A Python cookie dict, as an association list (lookups and membership
tests take the last binding of a key, matching dict semantics; dicts decoded
from JSON have unique keys). -/
abbrev PyDict : Type := List (String × String)

/-- `k in cookie`. -/
def hasKey (d : PyDict) (k : String) : Bool :=
  d.any (fun kv => kv.1 == k)

/-- `cookie[k]` (last binding wins, as in a Python dict). -/
def pyGet (d : PyDict) (k : String) : Option String :=
  match d.reverse.find? (fun kv => kv.1 == k) with
  | some kv => some kv.2
  | none => none

/-- `'name' in cookie and 'value' in cookie`. -/
def wfCookie (c : PyDict) : Bool :=
  hasKey c "name" && hasKey c "value"

/-- `if 'domain' not in cookie: cookie['domain'] = '.filman.cc'` — the
in-place mutation performed on a kept cookie dict. -/
def setDomainDefault (c : PyDict) : PyDict :=
  if hasKey c "domain" then c else c ++ (("domain", ".filman.cc") :: [])

/-- `FilmanScraper.inject_cookies`.  `driverOk` models whether the driver is
available and the initial navigation succeeds; otherwise the exception is
re-raised (`none`) before any cookie is processed.  On success the first
component lists the cookie dicts passed to `add_cookie` (in order), and the
second component is the post-call state of the caller's list: the loop
mutates each kept dict in place before applying it, and skips malformed
entries unchanged. -/
def inject_cookies (driverOk : Bool) (cookies : List PyDict) :
    Option (List PyDict × List PyDict) :=
  if driverOk then
    some
      (cookies.filterMap (fun c => if wfCookie c then some (setDomainDefault c) else none),
       cookies.map (fun c => if wfCookie c then setDomainDefault c else c))
  else none

/-! ### Session state: `check_if_logged_in` and `close` -/

/-- The scraper fields the session claims observe: the owned driver handle
(opaque) and the `is_logged_in` flag. -/
structure Scraper where
  driver : Option Unit
  is_logged_in : Bool
  deriving Repr, DecidableEq

/-- The environment of one `check_if_logged_in` call: whether `_init_driver`
succeeds, whether navigation and DOM queries succeed, and whether the page
shows a logout link / user-menu element. -/
structure LoginEnv where
  initOk : Bool
  navOk : Bool
  hasLogoutElem : Bool
  hasUserMenu : Bool
  deriving Repr, DecidableEq

/-- The part of `check_if_logged_in` after the driver is available: navigate
to the site root and look for authenticated-only markers.  Failures raise
into the enclosing handler, which returns `False` and leaves the state
untouched. -/
def checkBody (env : LoginEnv) (s : Scraper) : Bool × Scraper :=
  if !env.navOk then (false, s)
  else if env.hasLogoutElem || env.hasUserMenu then (true, { s with is_logged_in := true })
  else (false, s)

/-- `FilmanScraper.check_if_logged_in`: returns the boolean result together
with the scraper state after the call.  Every internal error is caught and
degrades to `false`; `_init_driver` nulls the handle before re-raising. -/
def check_if_logged_in (env : LoginEnv) (s : Scraper) : Bool × Scraper :=
  match s.driver with
  | none =>
    if env.initOk then checkBody env { s with driver := some () }
    else (false, { s with driver := none })
  | some _ => checkBody env s

/-- `FilmanScraper.close`: `quitOk` models whether `driver.quit()` raises;
the `try/except/finally` makes the outcome independent of it, and a missing
handle skips the teardown entirely. -/
def close (quitOk : Bool) (s : Scraper) : Scraper :=
  match s.driver with
  | none => s
  | some _ =>
    if quitOk then { s with driver := none } else { s with driver := none }

/-! ### Statement-level helpers for the index-consistency claim -/

/-- The poster's link element is present and carries an `href`. -/
def linkOk (p : Poster) : Bool :=
  match p.url with
  | some (some _) => true
  | _ => false

/-- The poster's URL does not match the serial pattern and the film pattern
at the same time. -/
def urlUnambiguous (p : Poster) : Bool :=
  match p.url with
  | some (some u) => !(serialUrl u && filmUrl u)
  | _ => true

/-- The tile-keeping predicate `select_result_by_index` implements for a
given filter (kept as a separate predicate so both functions can be related
to it). -/
def keepFor (content_type : Option String) (p : Poster) : Bool :=
  match content_type, p.url with
  | none, _ => true
  | some c, some (some u) =>
      (pyToLower c == "serial" && serialUrl u) || (pyToLower c == "film" && filmUrl u)
  | some _, _ => false

/-! ### Generic list lemmas -/

theorem filterMap_get?_all_isSome {α β : Type} (f : α → Option β) (l : List α)
    (h : ∀ a ∈ l, (f a).isSome = true) (i : Nat) :
    (l.filterMap f).get? i = (l.get? i).bind f := by
  induction l generalizing i with
  | nil => simp
  | cons a t ih =>
    obtain ⟨b, hb⟩ := Option.isSome_iff_exists.mp (h a (by simp))
    cases i with
    | zero => simp [List.filterMap_cons, hb]
    | succ j =>
      have hj := ih (fun x hx => h x (by simp [hx])) j
      simpa [List.filterMap_cons, hb] using hj

theorem length_filterMap_all_isSome {α β : Type} (f : α → Option β) (l : List α)
    (h : ∀ a ∈ l, (f a).isSome = true) :
    (l.filterMap f).length = l.length := by
  induction l with
  | nil => simp
  | cons a t ih =>
    obtain ⟨b, hb⟩ := Option.isSome_iff_exists.mp (h a (by simp))
    simp [List.filterMap_cons, hb, ih (fun x hx => h x (by simp [hx]))]

theorem filterMap_if_eq_filter_map {α β : Type} (p : α → Bool) (f : α → β) (l : List α) :
    l.filterMap (fun c => if p c then some (f c) else none) = (l.filter p).map f := by
  induction l with
  | nil => simp
  | cons a t ih =>
    cases hp : p a <;> simp [List.filterMap_cons, List.filter_cons, hp, ih]

theorem takeWhile_append_all {α : Type} (p : α → Bool) (l1 l2 : List α)
    (h : ∀ x ∈ l1, p x = true) :
    (l1 ++ l2).takeWhile p = l1 ++ l2.takeWhile p := by
  induction l1 with
  | nil => simp
  | cons a t ih =>
    simp [List.takeWhile_cons, h a (by simp), ih (fun x hx => h x (by simp [hx]))]

theorem dropWhile_append_all {α : Type} (p : α → Bool) (l1 l2 : List α)
    (h : ∀ x ∈ l1, p x = true) :
    (l1 ++ l2).dropWhile p = l2.dropWhile p := by
  induction l1 with
  | nil => simp
  | cons a t ih =>
    simp [List.dropWhile_cons, h a (by simp), ih (fun x hx => h x (by simp [hx]))]

theorem takeWhile_all {α : Type} (p : α → Bool) (l : List α)
    (h : ∀ x ∈ l, p x = true) : l.takeWhile p = l := by
  induction l with
  | nil => simp
  | cons a t ih =>
    simp [List.takeWhile_cons, h a (by simp), ih (fun x hx => h x (by simp [hx]))]

theorem dropWhile_idem {α : Type} (p : α → Bool) (l : List α) :
    (l.dropWhile p).dropWhile p = l.dropWhile p := by
  induction l with
  | nil => simp
  | cons a t ih =>
    cases hp : p a <;> simp [List.dropWhile_cons, hp, ih]

/-! ### Claim C2 -/

theorem find_year_index_eq (y : String) (l : List SearchResult) :
    ∀ acc, find_year_index y acc l =
      if l.any (fun r => r.year == y) then acc + l.findIdx (fun r => r.year == y)
      else 0 := by
  induction l with
  | nil => intro acc; simp [find_year_index]
  | cons r rs ih =>
    intro acc
    cases hr : r.year == y with
    | true => simp [find_year_index, hr, List.findIdx_cons]
    | false =>
      simp only [find_year_index, hr, if_false, List.any_cons, List.findIdx_cons,
        Bool.false_or, cond_false, ih (acc + 1)]
      cases rs.any (fun r => r.year == y) <;> simp <;> omega

/-- C2: in the search endpoint, when a (truthy) year is supplied the chosen
index is the first position whose result has `year` equal to the supplied
year's string form, and when no result matches, index 0 is chosen rather
than failing. -/
theorem scrape_search_year_selection (y : String) (results : List SearchResult) :
    pick_result_index (some y) results =
      if results.any (fun r => r.year == y) then results.findIdx (fun r => r.year == y)
      else 0 := by
  have h := find_year_index_eq y results 0
  simpa using h

/-! ### Claim C6 -/

/-- C6: a current URL containing `/m/` or `/film/` makes `extract_episodes`
return exactly one record with label `FILM`, title the page heading (fallback
`"Film"` when the heading element is missing) and url the current page URL,
whatever the episode-list items contain. -/
theorem movie_single_episode (page : Page)
    (h : (strContains page.current_url "/m/" || strContains page.current_url "/film/") = true) :
    extract_episodes page =
      [⟨"FILM", (page.heading.map pyStrip).getD "Film", some page.current_url⟩] := by
  simp [extract_episodes, h]

/-- Witness for C6 at a concrete movie page carrying (ignored) episode
items. -/
theorem movie_single_episode_witness :
    (strContains "https://filman.cc/m/Incepcja" "/m/"
        || strContains "https://filman.cc/m/Incepcja" "/film/") = true ∧
    extract_episodes
        ⟨"https://filman.cc/m/Incepcja", some " Incepcja ",
          [⟨false, some ⟨some "u", "[S01E01] junk"⟩⟩, ⟨true, none⟩]⟩
      = [⟨"FILM", "Incepcja", some "https://filman.cc/m/Incepcja"⟩] := by
  refine ⟨by decide, ?_⟩
  rw [movie_single_episode _ (by decide)]
  rfl

/-! ### Claim C8 -/

/-- C8 counterexample: with a live driver on a page without authenticated
markers and a previously-set flag, the call returns `false` but leaves
`is_logged_in` at `true` — the flag does not match the returned boolean. -/
theorem login_check_flag_stale :
    (check_if_logged_in ⟨true, true, false, false⟩ ⟨some (), true⟩).1 = false ∧
    (check_if_logged_in ⟨true, true, false, false⟩ ⟨some (), true⟩).2.is_logged_in = true :=
  ⟨rfl, rfl⟩

/-- C8 (amended): `check_if_logged_in` never raises (it is total, every
internal failure returning `false`); a `true` result sets `is_logged_in` to
`true`, while a `false` result leaves the flag unchanged — so the flag
equals the result only when it was previously `false` or the result is
`true`. -/
theorem login_check_flag (env : LoginEnv) (s : Scraper) :
    ((check_if_logged_in env s).1 = true →
      (check_if_logged_in env s).2.is_logged_in = true) ∧
    ((check_if_logged_in env s).1 = false →
      (check_if_logged_in env s).2.is_logged_in = s.is_logged_in) := by
  rcases env with ⟨i, n, l, u⟩
  rcases s with ⟨d, li⟩
  cases d <;> cases i <;> cases n <;> cases l <;> cases u <;>
    simp [check_if_logged_in, checkBody]

/-- Witness for C8 at a concrete environment where the check succeeds. -/
theorem login_check_flag_witness :
    (check_if_logged_in ⟨true, true, true, false⟩ ⟨none, false⟩).1 = true ∧
    (check_if_logged_in ⟨true, true, true, false⟩ ⟨none, false⟩).2.is_logged_in = true :=
  ⟨rfl, (login_check_flag ⟨true, true, true, false⟩ ⟨none, false⟩).1 rfl⟩

/-! ### Claim C9 -/

/-- C9: `close` never raises (total for both outcomes of the underlying
`driver.quit()`), and on every exit path — successful teardown, teardown
failure, or no active handle — the owned driver handle is `none`
afterwards. -/
theorem close_nulls_driver (quitOk : Bool) (s : Scraper) :
    (close quitOk s).driver = none := by
  cases h : s.driver <;> cases quitOk <;> simp [close, h]

/-! ### Claims C5 and C10 -/

theorem hasKey_append (c : PyDict) (kv : String × String) (k : String) :
    hasKey (c ++ [kv]) k = (hasKey c k || (kv.1 == k)) := by
  simp [hasKey, List.any_append]

theorem hasKey_setDomainDefault_domain (c : PyDict) :
    hasKey (setDomainDefault c) "domain" = true := by
  unfold setDomainDefault
  cases h : hasKey c "domain" with
  | true => simpa using h
  | false => simp [hasKey_append]

theorem hasKey_setDomainDefault_of_hasKey (c : PyDict) (k : String)
    (h : hasKey c k = true) : hasKey (setDomainDefault c) k = true := by
  unfold setDomainDefault
  cases hd : hasKey c "domain" <;> simp [hasKey_append, h]

theorem pyGet_append_last (c : PyDict) (k v : String) :
    pyGet (c ++ [(k, v)]) k = some v := by
  simp [pyGet, List.find?]

/-- C5: for every cookie list handed to `inject_cookies` (with the driver
available), the records passed to `add_cookie` are exactly the records
containing both `name` and `value` keys, in order; every applied record has a
`domain` key; and every applied record that lacked one gets the default
domain `.filman.cc`. -/
theorem inject_cookies_applied (driverOk : Bool) (cookies applied mutated : List PyDict)
    (h : inject_cookies driverOk cookies = some (applied, mutated)) :
    applied = (cookies.filter wfCookie).map setDomainDefault ∧
    (∀ c ∈ applied,
      hasKey c "name" = true ∧ hasKey c "value" = true ∧ hasKey c "domain" = true) ∧
    (∀ c ∈ cookies, wfCookie c = true → hasKey c "domain" = false →
      setDomainDefault c ∈ applied ∧
        pyGet (setDomainDefault c) "domain" = some ".filman.cc") := by
  cases driverOk with
  | false => simp [inject_cookies] at h
  | true =>
    simp only [inject_cookies, if_true, Option.some.injEq, Prod.mk.injEq] at h
    obtain ⟨ha, _hm⟩ := h
    have happ : applied = (cookies.filter wfCookie).map setDomainDefault := by
      rw [← ha, filterMap_if_eq_filter_map]
    refine ⟨happ, ?_, ?_⟩
    · intro c hc
      rw [happ] at hc
      obtain ⟨c0, hc0, rfl⟩ := List.mem_map.mp hc
      have hwf : wfCookie c0 = true := (List.mem_filter.mp hc0).2
      have hnv : hasKey c0 "name" = true ∧ hasKey c0 "value" = true := by
        simpa [wfCookie] using hwf
      exact ⟨hasKey_setDomainDefault_of_hasKey c0 "name" hnv.1,
        hasKey_setDomainDefault_of_hasKey c0 "value" hnv.2,
        hasKey_setDomainDefault_domain c0⟩
    · intro c hc hwf hnd
      constructor
      · rw [happ]
        exact List.mem_map.mpr ⟨c, List.mem_filter.mpr ⟨hc, hwf⟩, rfl⟩
      · unfold setDomainDefault
        rw [hnd]
        simpa using pyGet_append_last c "domain" ".filman.cc"

/-- Witness for C5 on a concrete list: a complete record, a record missing
`name`, and a record that already has a domain. -/
theorem inject_cookies_applied_witness :
    inject_cookies true
        [[("name", "a"), ("value", "1")], [("value", "2")],
          [("name", "b"), ("value", "3"), ("domain", "x.com")]]
      = some
        ([[("name", "a"), ("value", "1"), ("domain", ".filman.cc")],
          [("name", "b"), ("value", "3"), ("domain", "x.com")]],
         [[("name", "a"), ("value", "1"), ("domain", ".filman.cc")], [("value", "2")],
          [("name", "b"), ("value", "3"), ("domain", "x.com")]]) ∧
    [[("name", "a"), ("value", "1"), ("domain", ".filman.cc")],
        [("name", "b"), ("value", "3"), ("domain", "x.com")]]
      = (([[("name", "a"), ("value", "1")], [("value", "2")],
          [("name", "b"), ("value", "3"), ("domain", "x.com")]] : List PyDict).filter
            wfCookie).map setDomainDefault :=
  ⟨rfl,
    (inject_cookies_applied true
      [[("name", "a"), ("value", "1")], [("value", "2")],
        [("name", "b"), ("value", "3"), ("domain", "x.com")]]
      _ _ rfl).1⟩

/-- C10: `inject_cookies` mutates the caller's list in place — after the
call, every well-formed record that lacked a `domain` key holds the binding
`("domain", ".filman.cc")` at its position in the caller's list. -/
theorem inject_cookies_mutates (driverOk : Bool) (cookies applied mutated : List PyDict)
    (h : inject_cookies driverOk cookies = some (applied, mutated)) :
    ∀ i c, cookies.get? i = some c → wfCookie c = true → hasKey c "domain" = false →
      mutated.get? i = some (c ++ [("domain", ".filman.cc")]) ∧
      (mutated.get? i).bind (fun d => pyGet d "domain") = some ".filman.cc" := by
  cases driverOk with
  | false => simp [inject_cookies] at h
  | true =>
    simp only [inject_cookies, if_true, Option.some.injEq, Prod.mk.injEq] at h
    obtain ⟨_ha, hm⟩ := h
    intro i c hi hwf hnd
    have hmi : mutated.get? i = some (setDomainDefault c) := by
      rw [← hm, List.get?_map, hi]
      simp [hwf]
    have hsd : setDomainDefault c = c ++ [("domain", ".filman.cc")] := by
      unfold setDomainDefault
      rw [hnd]
      rfl
    rw [hmi, hsd]
    simpa using pyGet_append_last c "domain" ".filman.cc"

/-- Witness for C10: the first record of the concrete list from the C5
witness is extended in place with the default domain. -/
theorem inject_cookies_mutates_witness :
    ([[("name", "a"), ("value", "1")], [("value", "2")],
        [("name", "b"), ("value", "3"), ("domain", "x.com")]] : List (List (String × String))).get? 0
      = some [("name", "a"), ("value", "1")] ∧
    [[("name", "a"), ("value", "1"), ("domain", ".filman.cc")], [("value", "2")],
        [("name", "b"), ("value", "3"), ("domain", "x.com")]].get? 0
      = some ([("name", "a"), ("value", "1")] ++ [("domain", ".filman.cc")]) :=
  ⟨rfl,
    (inject_cookies_mutates true
      [[("name", "a"), ("value", "1")], [("value", "2")],
        [("name", "b"), ("value", "3"), ("domain", "x.com")]]
      _ _ rfl 0 [("name", "a"), ("value", "1")] rfl rfl rfl).1⟩

/-! ### Claims C3 and C4 -/

theorem extract_frame (pre post : List Row) (r : Row) (h : rowLink r = none) :
    extract_streaming_links (pre ++ r :: post) = extract_streaming_links (pre ++ post) := by
  simp [extract_streaming_links, List.filterMap_append, List.filterMap_cons, h]

theorem rowLink_none_of_provider (r : Row) (le : LinkElem) (p : String)
    (hlink : r.link = some le) (hprov : providerOf le.text = some p)
    (hall : ∀ a ∈ ALLOWED_PROVIDERS, strContains p a = false) :
    rowLink r = none := by
  have hany : ALLOWED_PROVIDERS.any (fun a => strContains p a) = false := by
    rw [List.any_eq_false]
    intro a ha
    simp [hall a ha]
  rcases hc : r.cells with _ | ⟨c0, _ | ⟨c1, _ | ⟨c2, rest⟩⟩⟩
  · simp [rowLink, hc]
  · simp [rowLink, hc]
  · simp [rowLink, hc]
  · simp [rowLink, hc, hlink, hprov, hany]

theorem rowLink_none_of_bad_payload (r : Row) (le : LinkElem) (di : String)
    (hlink : r.link = some le) (hdi : le.dataIframe = some di)
    (hdec : decode_data_iframe di = none) :
    rowLink r = none := by
  rcases hc : r.cells with _ | ⟨c0, _ | ⟨c1, _ | ⟨c2, rest⟩⟩⟩
  · simp [rowLink, hc]
  · simp [rowLink, hc]
  · simp [rowLink, hc]
  · cases hp : providerOf le.text with
    | none => simp [rowLink, hc, hlink, hp]
    | some p =>
      cases hany : ALLOWED_PROVIDERS.any (fun a => strContains p a) with
      | false => simp [rowLink, hc, hlink, hp, hany]
      | true =>
        cases hde : di == "" with
        | true => simp [rowLink, hc, hlink, hp, hany, hdi, hde]
        | false => simp [rowLink, hc, hlink, hp, hany, hdi, hde, hdec]

/-- C3 counterexample: the code keeps a row whenever an allow-listed name
occurs inside the provider token, so the provider `doodstream-hd` — which is
not in the allow-list — still yields a StreamLink. -/
theorem provider_allowlist_cex :
    providerOf "Doodstream-HD 720p" = some "doodstream-hd" ∧
    "doodstream-hd" ∉ ALLOWED_PROVIDERS ∧
    extract_streaming_links
        [⟨["x", "PL", "720p"],
          some ⟨"Doodstream-HD 720p", some "eyJzcmMiOiAiaHR0cHM6Ly92b2Uuc3gvZS9hYmMifQ=="⟩⟩]
      = [⟨"doodstream-hd", Json.str "https://voe.sx/e/abc", "720p", "PL"⟩] :=
  ⟨by decide, by decide, by rfl⟩

/-- C3 (amended): a links-table row whose provider token contains no
allow-listed provider name as a substring never produces a StreamLink,
whatever the rest of the row holds, and leaves the records of the other rows
unchanged.  (The code tests substring containment, not membership in the
allow-list.) -/
theorem provider_not_matching_dropped (pre post : List Row) (r : Row) (le : LinkElem) (p : String)
    (hlink : r.link = some le) (hprov : providerOf le.text = some p)
    (hall : ∀ a ∈ ALLOWED_PROVIDERS, strContains p a = false) :
    extract_streaming_links (pre ++ r :: post) = extract_streaming_links (pre ++ post) :=
  extract_frame pre post r (rowLink_none_of_provider r le p hlink hprov hall)

/-- Witness for C3 at a concrete disallowed row placed between two kept
rows. -/
theorem provider_not_matching_dropped_witness :
    providerOf "randomhost" = some "randomhost" ∧
    (∀ a ∈ ALLOWED_PROVIDERS, strContains "randomhost" a = false) ∧
    extract_streaming_links
        [⟨["x", "PL", "720p"],
          some ⟨"voe.sx", some "eyJzcmMiOiAiaHR0cHM6Ly92b2Uuc3gvZS9hYmMifQ=="⟩⟩,
         ⟨["x", "ENG", "1080p"], some ⟨"randomhost", some "!!!"⟩⟩,
         ⟨["x", "PL", "480p"],
          some ⟨"streamup", some "eyJzcmMiOiAiaHR0cHM6Ly92b2Uuc3gvZS9hYmMifQ=="⟩⟩]
      = extract_streaming_links
        [⟨["x", "PL", "720p"],
          some ⟨"voe.sx", some "eyJzcmMiOiAiaHR0cHM6Ly92b2Uuc3gvZS9hYmMifQ=="⟩⟩,
         ⟨["x", "PL", "480p"],
          some ⟨"streamup", some "eyJzcmMiOiAiaHR0cHM6Ly92b2Uuc3gvZS9hYmMifQ=="⟩⟩] :=
  ⟨by decide, by decide,
    provider_not_matching_dropped
      [⟨["x", "PL", "720p"],
        some ⟨"voe.sx", some "eyJzcmMiOiAiaHR0cHM6Ly92b2Uuc3gvZS9hYmMifQ=="⟩⟩]
      [⟨["x", "PL", "480p"],
        some ⟨"streamup", some "eyJzcmMiOiAiaHR0cHM6Ly92b2Uuc3gvZS9hYmMifQ=="⟩⟩]
      ⟨["x", "ENG", "1080p"], some ⟨"randomhost", some "!!!"⟩⟩
      ⟨"randomhost", some "!!!"⟩ "randomhost" rfl (by decide) (by decide)⟩

/-- C4: a links-table row whose `data-iframe` payload fails to decode
(invalid base64, undecodable bytes, unparsable JSON, a non-object document,
or an object without `src`) never produces a StreamLink, does not raise, and
leaves the records produced by the surrounding rows unchanged. -/
theorem bad_payload_row_dropped (pre post : List Row) (r : Row) (le : LinkElem) (di : String)
    (hlink : r.link = some le) (hdi : le.dataIframe = some di)
    (hdec : decode_data_iframe di = none) :
    extract_streaming_links (pre ++ r :: post) = extract_streaming_links (pre ++ post) :=
  extract_frame pre post r (rowLink_none_of_bad_payload r le di hlink hdi hdec)

/-- Witness for C4: a row with an undecodable payload between two good rows
is dropped without affecting them. -/
theorem bad_payload_row_dropped_witness :
    decode_data_iframe "eyJ3aWR0aCI6IDF9" = none ∧
    extract_streaming_links
        [⟨["x", "PL", "720p"],
          some ⟨"voe.sx", some "eyJzcmMiOiAiaHR0cHM6Ly92b2Uuc3gvZS9hYmMifQ=="⟩⟩,
         ⟨["x", "ENG", "1080p"], some ⟨"doodstream", some "eyJ3aWR0aCI6IDF9"⟩⟩,
         ⟨["x", "PL", "480p"],
          some ⟨"savefiles", some "eyJzcmMiOiAiaHR0cHM6Ly92b2Uuc3gvZS9hYmMifQ=="⟩⟩]
      = extract_streaming_links
        [⟨["x", "PL", "720p"],
          some ⟨"voe.sx", some "eyJzcmMiOiAiaHR0cHM6Ly92b2Uuc3gvZS9hYmMifQ=="⟩⟩,
         ⟨["x", "PL", "480p"],
          some ⟨"savefiles", some "eyJzcmMiOiAiaHR0cHM6Ly92b2Uuc3gvZS9hYmMifQ=="⟩⟩] :=
  ⟨by rfl,
    bad_payload_row_dropped
      [⟨["x", "PL", "720p"],
        some ⟨"voe.sx", some "eyJzcmMiOiAiaHR0cHM6Ly92b2Uuc3gvZS9hYmMifQ=="⟩⟩]
      [⟨["x", "PL", "480p"],
        some ⟨"savefiles", some "eyJzcmMiOiAiaHR0cHM6Ly92b2Uuc3gvZS9hYmMifQ=="⟩⟩]
      ⟨["x", "ENG", "1080p"], some ⟨"doodstream", some "eyJ3aWR0aCI6IDF9"⟩⟩
      ⟨"doodstream", some "eyJ3aWR0aCI6IDF9"⟩ "eyJ3aWR0aCI6IDF9" rfl rfl (by rfl)⟩

/-! ### Claim C7 -/

theorem str_data_append (s t : String) : (s ++ t).data = s.data ++ t.data := rfl

theorem mem_of_mem_dropWhile {α : Type} (p : α → Bool) (l : List α) (x : α)
    (h : x ∈ l.dropWhile p) : x ∈ l := by
  induction l with
  | nil => simpa using h
  | cons a t ih =>
    rw [List.dropWhile_cons] at h
    by_cases hp : p a = true
    · simp [hp] at h
      simp [ih h]
    · simp [hp] at h
      simpa using h

theorem pyStrip_mk_dropWhile (title : String) :
    pyStrip (String.mk (title.data.dropWhile pyIsSpace)) = pyStrip title := by
  unfold pyStrip
  rw [show (String.mk (title.data.dropWhile pyIsSpace)).data
      = title.data.dropWhile pyIsSpace from rfl]
  rw [dropWhile_idem]

theorem parseEpText_bracket (c title : String)
    (hc : c ≠ "") (hcb : ∀ ch ∈ c.data, ¬(ch = ']'))
    (htb : ∀ ch ∈ title.data, ¬(ch = '\n')) :
    parseEpText ("[" ++ c ++ "] " ++ title)
      = some (c, String.mk (title.data.dropWhile pyIsSpace)) := by
  have hp : ∀ x ∈ c.data, (fun ch => !(ch == ']')) x = true := by
    intro x hx
    simpa using hcb x hx
  have hdata : ("[" ++ c ++ "] " ++ title).data
      = '[' :: (c.data ++ (']' :: ' ' :: title.data)) := by
    simp [str_data_append]
  have htake : (c.data ++ (']' :: ' ' :: title.data)).takeWhile (fun ch => !(ch == ']'))
      = c.data := by
    rw [takeWhile_append_all _ _ _ hp]
    simp [List.takeWhile_cons]
  have hdrop : (c.data ++ (']' :: ' ' :: title.data)).dropWhile (fun ch => !(ch == ']'))
      = ']' :: ' ' :: title.data := by
    rw [dropWhile_append_all _ _ _ hp]
    simp [List.dropWhile_cons]
  have hne : c.data.isEmpty = false := by
    cases hd : c.data with
    | nil =>
      exact absurd (by cases c with | mk d => simp at hd; simp [hd]) hc
    | cons d ds => rfl
  have hsp : (' ' :: title.data).dropWhile pyIsSpace = title.data.dropWhile pyIsSpace := by
    rw [List.dropWhile_cons]
    norm_num [pyIsSpace]
  have hta : (title.data.dropWhile pyIsSpace).takeWhile (fun ch => !(ch == '\n'))
      = title.data.dropWhile pyIsSpace := by
    apply takeWhile_all
    intro x hx
    simpa using htb x (mem_of_mem_dropWhile _ _ _ hx)
  unfold parseEpText
  rw [hdata]
  simp only [htake, hdrop, hne, Bool.false_eq_true, if_false]
  rw [if_pos (by rfl)]
  simp only [hsp, hta]

/-- C7 counterexample: the code upper-cases the bracket content, so for the
matching text `"[s01e01] Pilot"` the resulting label is `"S01E01"`, not the
bracket content `"s01e01"`. -/
theorem episode_label_upper_cex :
    parseEpText "[s01e01] Pilot" = some ("s01e01", "Pilot") ∧
    extract_episodes
        ⟨"https://filman.cc/serial-online/x", none,
          [⟨false, some ⟨none, "[s01e01] Pilot"⟩⟩]⟩
      = [⟨"S01E01", "Pilot", none⟩] ∧
    "S01E01" ≠ "s01e01" :=
  ⟨by decide, by decide, by decide⟩

/-- C7 (amended): for an episode item whose stripped anchor text has the
bracketed shape `[<content>] <rest>`, the upper-cased bracket content becomes
the label and the stripped remainder becomes the title; for text that does
not start with `[` (or is empty), the whole text becomes the label and the
title is empty. -/
theorem episode_label_parsing (item : EpisodeItem) (a : Anchor)
    (hspan : item.hasSpan = false) (hlink : item.link = some a) :
    (∀ c title : String,
      pyStrip a.text = "[" ++ c ++ "] " ++ title →
      c ≠ "" → (∀ ch ∈ c.data, ¬(ch = ']')) → (∀ ch ∈ title.data, ¬(ch = '\n')) →
      episodeOf item = some ⟨pyToUpper c, pyStrip title, a.href⟩) ∧
    (∀ ch cs, (pyStrip a.text).data = ch :: cs → ¬(ch = '[') →
      episodeOf item = some ⟨pyStrip a.text, "", a.href⟩) ∧
    ((pyStrip a.text).data = [] →
      episodeOf item = some ⟨pyStrip a.text, "", a.href⟩) := by
  refine ⟨?_, ?_, ?_⟩
  · intro c title heq hc hcb htb
    have hparse : parseEpText (pyStrip a.text)
        = some (c, String.mk (title.data.dropWhile pyIsSpace)) := by
      rw [heq]
      exact parseEpText_bracket c title hc hcb htb
    simp [episodeOf, hspan, hlink, hparse, pyStrip_mk_dropWhile]
  · intro ch cs hdata hch
    have hparse : parseEpText (pyStrip a.text) = none := by
      unfold parseEpText
      rw [hdata]
      simp [hch]
    simp [episodeOf, hspan, hlink, hparse]
  · intro hdata
    have hparse : parseEpText (pyStrip a.text) = none := by
      unfold parseEpText
      rw [hdata]
    simp [episodeOf, hspan, hlink, hparse]

/-- Witness for C7 on the two concrete texts named by the claim. -/
theorem episode_label_parsing_witness :
    episodeOf ⟨false, some ⟨some "https://filman.cc/e1", "[S01E01] Pilot"⟩⟩
      = some ⟨"S01E01", "Pilot", some "https://filman.cc/e1"⟩ ∧
    episodeOf ⟨false, some ⟨none, "Odc 5"⟩⟩ = some ⟨"Odc 5", "", none⟩ := by
  constructor
  · have h := (episode_label_parsing
        ⟨false, some ⟨some "https://filman.cc/e1", "[S01E01] Pilot"⟩⟩
        ⟨some "https://filman.cc/e1", "[S01E01] Pilot"⟩ rfl rfl).1
        "S01E01" "Pilot" (by decide) (by decide) (by decide) (by decide)
    exact h
  · have h := (episode_label_parsing ⟨false, some ⟨none, "Odc 5"⟩⟩
        ⟨none, "Odc 5"⟩ rfl rfl).2.1 'O' "dc 5".data (by decide) (by decide)
    exact h

/-! ### Claim C1 -/

theorem linkOk_iff (p : Poster) : linkOk p = true ↔ ∃ u, p.url = some (some u) := by
  unfold linkOk
  cases hp : p.url with
  | none => simp
  | some uo =>
    cases uo with
    | none => simp
    | some u => simp

theorem classify_beq_serial (u : String) :
    (classifyUrl u == "serial") = serialUrl u := by
  unfold classifyUrl
  cases hs : serialUrl u <;> cases hf : filmUrl u <;> simp [hs, hf]

theorem classify_beq_film (u : String) :
    (classifyUrl u == "film") = (!serialUrl u && filmUrl u) := by
  unfold classifyUrl
  cases hs : serialUrl u <;> cases hf : filmUrl u <;> simp [hs, hf]

theorem selectFiltered_eq (c : String) (l : List Poster)
    (h1 : ∀ p ∈ l, linkOk p = true)
    (hc : pyToLower c = "serial" ∨ pyToLower c = "film") :
    selectFiltered c l = some (l.filter (keepFor (some c))) := by
  induction l with
  | nil => simp [selectFiltered]
  | cons p t ih =>
    obtain ⟨u, hu⟩ := (linkOk_iff p).mp (h1 p (by simp))
    have ih2 := ih (fun q hq => h1 q (by simp [hq]))
    rcases hc with hc | hc
    · cases hsu : serialUrl u <;>
        simp [selectFiltered, hu, hc, hsu, keepFor, List.filter_cons, ih2]
    · cases hfu : filmUrl u <;>
        simp [selectFiltered, hu, hc, hfu, keepFor, List.filter_cons, ih2]

theorem gsr_eq (ct : Option String) (l : List Poster)
    (h1 : ∀ p ∈ l, linkOk p = true ∧ p.title.isSome = true)
    (h2 : ∀ p ∈ l, urlUnambiguous p = true)
    (hct : ct = none ∨
      ∃ c, ct = some c ∧ (pyToLower c = "serial" ∨ pyToLower c = "film")) :
    get_search_results ct l = (l.filter (keepFor ct)).filterMap (posterRecord ct) := by
  induction l with
  | nil => simp [get_search_results]
  | cons p t ih =>
    obtain ⟨hpl, hpt⟩ := h1 p (by simp)
    obtain ⟨u, hu⟩ := (linkOk_iff p).mp hpl
    obtain ⟨ti, hti⟩ := Option.isSome_iff_exists.mp hpt
    have h2p := h2 p (by simp)
    have ih2 := ih (fun q hq => h1 q (by simp [hq])) (fun q hq => h2 q (by simp [hq]))
    have hna : serialUrl u = true → filmUrl u = false := by
      intro hs
      unfold urlUnambiguous at h2p
      rw [hu] at h2p
      simp at h2p
      rcases h2p with h | h
      · rw [h] at hs; simp at hs
      · exact h
    rcases hct with rfl | ⟨c, rfl, hc⟩
    · simp [get_search_results, hu, hti, keepFor, List.filter_cons,
        List.filterMap_cons, posterRecord, ih2]
    · rcases hc with hc | hc
      · have hcls := classify_beq_serial u
        cases hsu : serialUrl u <;>
          simp [get_search_results, hu, hti, hc, hsu, hcls, keepFor,
            List.filter_cons, List.filterMap_cons, posterRecord, ih2]
      · have hcls := classify_beq_film u
        cases hfu : filmUrl u with
        | false =>
          simp [get_search_results, hu, hti, hc, hfu, hcls, keepFor,
            List.filter_cons, List.filterMap_cons, posterRecord, ih2]
        | true =>
          have hsu : serialUrl u = false := by
            cases hs : serialUrl u
            · rfl
            · rw [hna hs] at hfu; simp at hfu
          simp [get_search_results, hu, hti, hc, hfu, hsu, hcls, keepFor,
            List.filter_cons, List.filterMap_cons, posterRecord, ih2]

theorem posterRecord_isSome_of_keep (ct : Option String) (p : Poster)
    (hl : linkOk p = true) (ht : p.title.isSome = true) (hun : urlUnambiguous p = true)
    (hct : ct = none ∨
      ∃ c, ct = some c ∧ (pyToLower c = "serial" ∨ pyToLower c = "film"))
    (hk : keepFor ct p = true) :
    (posterRecord ct p).isSome = true := by
  obtain ⟨u, hu⟩ := (linkOk_iff p).mp hl
  obtain ⟨ti, hti⟩ := Option.isSome_iff_exists.mp ht
  have hna : serialUrl u = true → filmUrl u = false := by
    intro hs
    unfold urlUnambiguous at hun
    rw [hu] at hun
    simp at hun
    rcases hun with h | h
    · rw [h] at hs; simp at hs
    · exact h
  rcases hct with rfl | ⟨c, rfl, hc⟩
  · simp [posterRecord, hu, hti]
  · simp only [keepFor, hu] at hk
    rcases hc with hc | hc
    · rw [hc] at hk
      simp at hk
      simp [posterRecord, hu, hti, hc, classify_beq_serial, hk]
    · rw [hc] at hk
      simp at hk
      have hsu : serialUrl u = false := by
        cases hs : serialUrl u
        · rfl
        · rw [hna hs] at hk; simp at hk
      simp [posterRecord, hu, hti, hc, classify_beq_film, hsu, hk]

/-- C1 counterexample: a tile whose `.film_title` element is missing is
skipped by `get_search_results` but kept by `select_result_by_index`'s
rebuilt filter, so with the same filter `serial` and the in-range index 0
the clicked tile is not the tile that produced the listed record 0. -/
theorem list_select_index_mismatch :
    0 < (get_search_results (some "serial")
        [⟨some (some "https://filman.cc/s/a"), none, none⟩,
         ⟨some (some "https://filman.cc/s/b"), some "B", none⟩]).length ∧
    (select_result_by_index 0 (some "serial")
        [⟨some (some "https://filman.cc/s/a"), none, none⟩,
         ⟨some (some "https://filman.cc/s/b"), some "B", none⟩]).bind
        (posterRecord (some "serial"))
      ≠ (get_search_results (some "serial")
        [⟨some (some "https://filman.cc/s/a"), none, none⟩,
         ⟨some (some "https://filman.cc/s/b"), some "B", none⟩]).get? 0 :=
  ⟨by decide, by decide⟩

/-- C1 (amended): provided every tile has a link with an `href` and a title
element, no tile's URL matches both the serial and the film URL patterns,
and the filter is absent or (case-insensitively) `serial`/`film`, then for
every index `i` in range of the listed results, `select_result_by_index`
with the same filter clicks a tile, and the record that tile contributes is
exactly the record `get_search_results` reported at position `i`. -/
theorem list_select_index_consistency (content_type : Option String) (posters : List Poster)
    (h1 : ∀ p ∈ posters, linkOk p = true ∧ p.title.isSome = true)
    (h2 : ∀ p ∈ posters, urlUnambiguous p = true)
    (hct : content_type = none ∨
      ∃ c, content_type = some c ∧ (pyToLower c = "serial" ∨ pyToLower c = "film"))
    (i : Nat) (hi : i < (get_search_results content_type posters).length) :
    (select_result_by_index i content_type posters).isSome = true ∧
    (select_result_by_index i content_type posters).bind (posterRecord content_type)
      = (get_search_results content_type posters).get? i := by
  have hgsr := gsr_eq content_type posters h1 h2 hct
  have hmemF : ∀ p ∈ posters.filter (keepFor content_type),
      p ∈ posters ∧ keepFor content_type p = true := by
    intro p hp
    exact List.mem_filter.mp hp
  have hsome : ∀ p ∈ posters.filter (keepFor content_type),
      (posterRecord content_type p).isSome = true := by
    intro p hp
    obtain ⟨hpp, hk⟩ := hmemF p hp
    exact posterRecord_isSome_of_keep _ p (h1 p hpp).1 (h1 p hpp).2 (h2 p hpp) hct hk
  have hlen : (get_search_results content_type posters).length
      = (posters.filter (keepFor content_type)).length := by
    rw [hgsr]
    exact length_filterMap_all_isSome _ _ hsome
  have hiF : i < (posters.filter (keepFor content_type)).length := by
    rw [← hlen]; exact hi
  obtain ⟨p, hp⟩ : ∃ p, (posters.filter (keepFor content_type)).get? i = some p := by
    cases hg : (posters.filter (keepFor content_type)).get? i with
    | none =>
      rw [List.get?_eq_none] at hg
      omega
    | some p => exact ⟨p, rfl⟩
  have hpF : p ∈ posters.filter (keepFor content_type) := List.get?_mem hp
  obtain ⟨hpp, hk⟩ := hmemF p hpF
  obtain ⟨u, hu⟩ := (linkOk_iff p).mp (h1 p hpp).1
  have hsel : select_result_by_index i content_type posters = some p := by
    rcases hct with rfl | ⟨c, rfl, hc⟩
    · have hfilter : posters.filter (keepFor none) = posters :=
        List.filter_eq_self.mpr (fun a _ => rfl)
      rw [hfilter] at hp
      have hp2 : posters[i]? = some p := by simpa using hp
      unfold select_result_by_index
      simp [hp2, hu]
    · have hsf := selectFiltered_eq c posters (fun q hq => (h1 q hq).1) hc
      have hp2 : (posters.filter (keepFor (some c)))[i]? = some p := by simpa using hp
      unfold select_result_by_index
      simp [hsf, hp2, hu]
  constructor
  · rw [hsel]; rfl
  · rw [hsel, hgsr, filterMap_get?_all_isSome _ _ hsome i, hp]

/-- Witness for C1 at a single serial tile with full fields and the filter
`serial`. -/
theorem list_select_index_consistency_witness :
    (select_result_by_index 0 (some "serial")
        [⟨some (some "https://filman.cc/serial/bb"), some "Breaking Bad", some "2008"⟩]).isSome
      = true ∧
    (select_result_by_index 0 (some "serial")
        [⟨some (some "https://filman.cc/serial/bb"), some "Breaking Bad", some "2008"⟩]).bind
        (posterRecord (some "serial"))
      = (get_search_results (some "serial")
        [⟨some (some "https://filman.cc/serial/bb"), some "Breaking Bad", some "2008"⟩]).get? 0 :=
  list_select_index_consistency (some "serial")
    [⟨some (some "https://filman.cc/serial/bb"), some "Breaking Bad", some "2008"⟩]
    (by decide) (by decide) (Or.inr ⟨"serial", rfl, Or.inl (by decide)⟩) 0 (by decide)

end Filman








